import Mathlib

/-!
Shallow embedding of `src/semantic_layer.py` (function `generate_sql` and its
helpers) and proofs about the claims of the specification.

Modelling conventions:
* Python dataclasses become Lean structures with the same field names.
* `Optional[List[...]]` fields become `Option (List ...)`; a Python dict key
  that may be absent (`"dimensions" in query`) becomes an `Option` field.
* Python exceptions become an explicit `PyError` value: `generate_sql`
  returns `Except PyError String`.  `ValueError` (raised only for a missing
  metric), `StopIteration` (raised by `next(iter(...))` on an empty set) and
  `TypeError` (raised when iterating `None`) each get a constructor.
* Python `set` objects (`tables`, the join-endpoint set) are modelled as
  duplicate-free insertion-ordered lists; CPython's unspecified set iteration
  order in `next(iter(tables & join_tables))` and `next(iter(tables))` is
  determinized as "first element in insertion order that qualifies".
* Filter values (`Any` in the source, string-or-number JSON values in every
  caller) are modelled as string or integer.
-/

namespace SemanticLayerModel

/-- `Metric` dataclass of `semantic_layer.py`: name, sql expression, table. -/
structure Metric where
  name : String
  sql : String
  table : String
deriving DecidableEq, Repr

/-- `Dimension` dataclass of `semantic_layer.py`: name, sql expression, table. -/
structure Dimension where
  name : String
  sql : String
  table : String
deriving DecidableEq, Repr

/-- `Join` dataclass of `semantic_layer.py`: one/many endpoints, join condition. -/
structure Join where
  one : String
  many : String
  join : String
deriving DecidableEq, Repr

/-- Value of a filter: the callers only ever pass JSON strings or numbers;
numbers are modelled as integers. -/
inductive FilterValue where
  | str (s : String)
  | int (n : Int)
deriving DecidableEq, Repr

/-- `Filter` dataclass of `semantic_layer.py`: field, operator, value. -/
structure Filter where
  field : String
  operator : String
  value : FilterValue
deriving DecidableEq, Repr

/-- `SemanticLayer` dataclass: metrics, optional dimensions, optional joins. -/
structure SemanticLayer where
  metrics : List Metric
  dimensions : Option (List Dimension)
  joins : Option (List Join)
deriving DecidableEq, Repr

/-- The query dict passed to `generate_sql`: `query.get("metrics", [])`,
and the optional keys `"dimensions"` and `"filters"`. -/
structure Query where
  metrics : List String
  dimensions : Option (List String)
  filters : Option (List Filter)
deriving DecidableEq, Repr

/-- Python exceptions that can escape `generate_sql`. -/
inductive PyError where
  | valueError (msg : String)
  | stopIteration
  | typeError (msg : String)
deriving DecidableEq, Repr

/-- Python truthiness of an optional list (`None` and `[]` are falsy). -/
def pyTruthy {α : Type} : Option (List α) → Bool
  | none => false
  | some l => !l.isEmpty

/-- Python `str.replace` on character lists: replace every leftmost
non-overlapping occurrence of a non-empty pattern.  Structural recursion on a
fuel bounded by the list length (for a non-empty pattern every step consumes
at least one character, so fuel equal to the length is always enough). -/
def listReplaceFuel (pat rep : List Char) : Nat → List Char → List Char
  | 0, cs => cs
  | _ + 1, [] => []
  | fuel + 1, c :: rest =>
    if pat.isPrefixOf (c :: rest) then
      rep ++ listReplaceFuel pat rep fuel ((c :: rest).drop pat.length)
    else
      c :: listReplaceFuel pat rep fuel rest

/-- Python `s.replace(pat, rep)` for a non-empty pattern (the only pattern the
source uses is `"__week"`; the empty-pattern behavior of Python is never
exercised and is not modelled faithfully). -/
def pyReplace (s pat rep : String) : String :=
  String.mk (listReplaceFuel pat.toList rep.toList s.toList.length s.toList)

/-- Python `s.endswith(suffix)`. -/
def pyEndsWith (s suffix : String) : Bool :=
  suffix.toList.isSuffixOf s.toList

/-- Python whitespace characters stripped by `str.strip()`. -/
def isPySpace (c : Char) : Bool :=
  c = ' ' || c = '\t' || c = '\n' || c = '\r' || c = '\x0b' || c = '\x0c'

/-- Python `s.strip()`: drop leading and trailing whitespace. -/
def pyStrip (s : String) : String :=
  String.mk (((s.toList.dropWhile isPySpace).reverse.dropWhile isPySpace).reverse)

/-- Python `f"{v}"` for a filter value. -/
def pyValueStr : FilterValue → String
  | .str s => s
  | .int n => toString n

/-- Numeric value of a digit character. -/
def digitVal (c : Char) : Nat := c.toNat - 48

/-- CPython `_strptime` directive `%Y`: exactly four digits. -/
def yearParse : List Char → Option (Nat × List Char)
  | a :: b :: c :: d :: rest =>
    if a.isDigit ∧ b.isDigit ∧ c.isDigit ∧ d.isDigit then
      some (1000 * digitVal a + 100 * digitVal b + 10 * digitVal c + digitVal d, rest)
    else none
  | _ => none

/-- CPython `_strptime` directive `%m`, regex `1[0-2]|0[1-9]|[1-9]`:
candidate parses in alternation-priority order (for backtracking). -/
def monthCands : List Char → List (Nat × List Char)
  | c1 :: c2 :: rest =>
    (if c1 = '1' ∧ '0' ≤ c2 ∧ c2 ≤ '2' then [(10 + digitVal c2, rest)] else [])
    ++ (if c1 = '0' ∧ '1' ≤ c2 ∧ c2 ≤ '9' then [(digitVal c2, rest)] else [])
    ++ (if '1' ≤ c1 ∧ c1 ≤ '9' then [(digitVal c1, c2 :: rest)] else [])
  | [c1] => if '1' ≤ c1 ∧ c1 ≤ '9' then [(digitVal c1, [])] else []
  | [] => []

/-- CPython `_strptime` directive `%d`, regex `3[01]|[12]\d|0[1-9]|[1-9]`:
candidate parses in alternation-priority order. -/
def dayCands : List Char → List (Nat × List Char)
  | c1 :: c2 :: rest =>
    (if c1 = '3' ∧ (c2 = '0' ∨ c2 = '1') then [(30 + digitVal c2, rest)] else [])
    ++ (if (c1 = '1' ∨ c1 = '2') ∧ c2.isDigit then [(10 * digitVal c1 + digitVal c2, rest)] else [])
    ++ (if c1 = '0' ∧ '1' ≤ c2 ∧ c2 ≤ '9' then [(digitVal c2, rest)] else [])
    ++ (if '1' ≤ c1 ∧ c1 ≤ '9' then [(digitVal c1, c2 :: rest)] else [])
  | [c1] => if '1' ≤ c1 ∧ c1 ≤ '9' then [(digitVal c1, [])] else []
  | [] => []

/-- Backtracking match of the whole format `"%Y-%m-%d"` against the full
string, as CPython's regex engine does (full match required). -/
def ymdMatch (s : String) : Option (Nat × Nat × Nat) :=
  match yearParse s.toList with
  | none => none
  | some (y, rest1) =>
    match rest1 with
    | '-' :: rest2 =>
      (monthCands rest2).findSome? (fun mc =>
        match mc.2 with
        | '-' :: rest3 =>
          (dayCands rest3).findSome? (fun dc =>
            if dc.2 = ([] : List Char) then some (y, mc.1, dc.1) else none)
        | _ => none)
    | _ => none

/-- Number of days in a month, with Gregorian leap years, as validated by
`datetime`'s constructor. -/
def daysInMonth (y m : Nat) : Nat :=
  if m = 2 then (if y % 4 = 0 ∧ (y % 100 ≠ 0 ∨ y % 400 = 0) then 29 else 28)
  else if m = 4 ∨ m = 6 ∨ m = 9 ∨ m = 11 then 30 else 31

/-- Whether `datetime.strptime(s, "%Y-%m-%d")` succeeds: the format regex
matches the whole string and the resulting (year, month, day) is a valid
`datetime` date (year at least 1; four digits bound it by 9999). -/
def strptimeOk (s : String) : Bool :=
  match ymdMatch s with
  | some (y, m, d) => decide (1 ≤ y ∧ d ≤ daysInMonth y m)
  | none => false

/-- `get_qualified_field` of `semantic_layer.py`: check dimensions (guarded by
Python truthiness of the optional list), then metrics, else return the field
unchanged. -/
def get_qualified_field (field : String) (sl : SemanticLayer) : String :=
  match
    (if pyTruthy sl.dimensions then
      (sl.dimensions.getD []).find? (fun d => d.name == field)
    else none) with
  | some d => d.table ++ "." ++ d.sql
  | none =>
    match sl.metrics.find? (fun m => m.name == field) with
    | some m => m.table ++ "." ++ m.sql
    | none => field

/-- `tables.add(t)` on the insertion-ordered set model. -/
def insertTable (tables : List String) (t : String) : List String :=
  if tables.contains t then tables else tables ++ [t]

/-- The metric loop of `generate_sql` (lines 83-88): for each requested
metric name, find it in the schema (first match) or raise `ValueError`;
append `"<sql> AS <name>"` and record the table. -/
def buildMetricParts (ms : List Metric) :
    List String → List String → List String → Except PyError (List String × List String)
  | [], parts, tables => .ok (parts, tables)
  | nm :: rest, parts, tables =>
    match ms.find? (fun m => m.name == nm) with
    | none => .error (.valueError ("Metric " ++ nm ++ " not found in semantic layer"))
    | some m =>
      buildMetricParts ms rest (parts ++ [m.sql ++ " AS " ++ m.name]) (insertTable tables m.table)

/-- The dimension loop of `generate_sql` (lines 92-105), once the schema's
dimension list is known to be an actual list `ds`. -/
def dimPartsLoop (ds : List Dimension) :
    List String → List String → List String → List String × List String
  | [], parts, tables => (parts, tables)
  | nm :: rest, parts, tables =>
    if pyEndsWith nm "__week" then
      match ds.find? (fun d => d.name == pyReplace nm "__week" "") with
      | some d =>
        dimPartsLoop ds rest
          (parts ++ ["DATE_TRUNC(" ++ d.table ++ "." ++ d.sql ++ ", WEEK) AS " ++ nm])
          (insertTable tables d.table)
      | none => dimPartsLoop ds rest parts tables
    else
      match ds.find? (fun d => d.name == nm) with
      | some d =>
        dimPartsLoop ds rest
          (parts ++ [d.table ++ "." ++ d.sql ++ " AS " ++ nm])
          (insertTable tables d.table)
      | none => dimPartsLoop ds rest parts tables

/-- The dimension loop including the `TypeError` Python raises when the query
requests dimensions but the schema's `dimensions` field is `None` (each loop
iteration evaluates `next(d for d in semantic_layer.dimensions ...)`). -/
def buildDimensionParts (dims : Option (List Dimension)) (dimNames : List String)
    (tables : List String) : Except PyError (List String × List String) :=
  match dimNames with
  | [] => .ok ([], tables)
  | _ :: _ =>
    match dims with
    | none => .error (.typeError "argument of type NoneType is not iterable")
    | some ds => .ok (dimPartsLoop ds dimNames [] tables)

/-- The dimension phase of `generate_sql`: run only when the query has a
`"dimensions"` key. -/
def dimPhase (query : Query) (sl : SemanticLayer) (tables : List String) :
    Except PyError (List String × List String) :=
  match query.dimensions with
  | none => .ok ([], tables)
  | some dimNames => buildDimensionParts sl.dimensions dimNames tables

/-- The set of join endpoints `{j.one} | {j.many}` (membership is all that
the source uses it for). -/
def joinTablesOf (js : List Join) : List String :=
  js.map Join.one ++ js.map Join.many

/-- The join-emission loop of `generate_sql` (lines 119-124): for each
declared join, if either endpoint is a required table, emit a JOIN line,
joining `many` when `one` is the anchor and `one` otherwise. -/
def joinLinesLoop (tables : List String) (mainTable : String) : List Join → List String
  | [] => []
  | j :: rest =>
    if tables.contains j.one || tables.contains j.many then
      (if j.one == mainTable then "JOIN " ++ j.many ++ " ON " ++ j.join
       else "JOIN " ++ j.one ++ " ON " ++ j.join) :: joinLinesLoop tables mainTable rest
    else joinLinesLoop tables mainTable rest

/-- FROM/JOIN clause of `generate_sql` (lines 112-127).  `next(iter(...))` on
an empty set raises `StopIteration`; on a non-empty set the choice is
determinized as the first qualifying table in insertion order. -/
def buildFromClause (joins : Option (List Join)) (tables : List String) :
    Except PyError String :=
  if pyTruthy joins ∧ 1 < tables.length then
    match tables.find? (fun t => (joinTablesOf (joins.getD [])).contains t) with
    | none => .error .stopIteration
    | some mainTable =>
      .ok ("FROM " ++ mainTable ++ "\n"
        ++ String.join ((joinLinesLoop tables mainTable (joins.getD [])).map (fun l => l ++ "\n")))
  else
    match tables with
    | [] => .error .stopIteration
    | t :: _ => .ok ("FROM " ++ t ++ "\n")

/-- The filter loop of `generate_sql` (lines 132-157): route each filter to
HAVING (field among the requested metrics) or WHERE, rendering dates,
numbers and strings as the source does.  Returns (where, having). -/
def processFilters (requested : List String) (sl : SemanticLayer) :
    List Filter → List String → List String → List String × List String
  | [], wheres, havings => (wheres, havings)
  | f :: rest, wheres, havings =>
    if requested.contains f.field then
      processFilters requested sl rest wheres
        (havings ++ [f.field ++ " " ++ f.operator ++ " " ++ pyValueStr f.value])
    else
      match f.value with
      | .str s =>
        if ((sl.dimensions.getD []).map Dimension.name).contains f.field && strptimeOk s then
          processFilters requested sl rest
            (wheres ++ ["DATE(" ++ get_qualified_field f.field sl ++ ") " ++ f.operator
              ++ " DATE('" ++ s ++ "')"]) havings
        else
          processFilters requested sl rest
            (wheres ++ [get_qualified_field f.field sl ++ " " ++ f.operator ++ " '" ++ s ++ "'"])
            havings
      | .int n =>
        processFilters requested sl rest
          (wheres ++ [get_qualified_field f.field sl ++ " " ++ f.operator ++ " " ++ toString n])
          havings

/-- The GROUP BY loop of `generate_sql` (lines 165-175), given an actual
dimension list. -/
def groupPartsLoop (ds : List Dimension) : List String → List String → List String
  | [], parts => parts
  | nm :: rest, parts =>
    if pyEndsWith nm "__week" then
      match ds.find? (fun d => d.name == pyReplace nm "__week" "") with
      | some d =>
        groupPartsLoop ds rest (parts ++ ["DATE_TRUNC(" ++ d.table ++ "." ++ d.sql ++ ", WEEK)"])
      | none => groupPartsLoop ds rest parts
    else
      match ds.find? (fun d => d.name == nm) with
      | some d => groupPartsLoop ds rest (parts ++ [d.table ++ "." ++ d.sql])
      | none => groupPartsLoop ds rest parts

/-- GROUP BY expressions, with the `TypeError` on iterating a `None`
dimension list (unreachable from `generate_sql`, which only calls this when
a dimension was resolved). -/
def buildGroupBy (dims : Option (List Dimension)) (dimNames : List String) :
    Except PyError (List String) :=
  match dimNames with
  | [] => .ok []
  | _ :: _ =>
    match dims with
    | none => .error (.typeError "argument of type NoneType is not iterable")
    | some ds => .ok (groupPartsLoop ds dimNames [])

/-- The GROUP BY phase (lines 163-177): emitted only when some dimension was
resolved into the SELECT list. -/
def groupPhase (query : Query) (sl : SemanticLayer) (dimParts : List String) :
    Except PyError String :=
  if dimParts.isEmpty then .ok ""
  else
    match buildGroupBy sl.dimensions (query.dimensions.getD []) with
    | .error e => .error e
    | .ok gps => .ok ("GROUP BY " ++ String.intercalate ", " gps ++ "\n")

/-- `generate_sql` of `semantic_layer.py`: the full compile pipeline. -/
def generate_sql (query : Query) (sl : SemanticLayer) : Except PyError String :=
  match buildMetricParts sl.metrics query.metrics [] [] with
  | .error e => .error e
  | .ok (metricParts, tables1) =>
    match dimPhase query sl tables1 with
    | .error e => .error e
    | .ok (dimParts, tables) =>
      let selectSql := "SELECT " ++ String.intercalate ", " (dimParts ++ metricParts) ++ "\n"
      match buildFromClause sl.joins tables with
      | .error e => .error e
      | .ok fromSql =>
        let conds :=
          match query.filters with
          | none => (([] : List String), ([] : List String))
          | some fs => processFilters query.metrics sl fs [] []
        let whereSql :=
          if conds.1.isEmpty then "" else "WHERE " ++ String.intercalate " AND " conds.1 ++ "\n"
        match groupPhase query sl dimParts with
        | .error e => .error e
        | .ok groupSql =>
          let havingSql :=
            if conds.2.isEmpty then "" else "HAVING " ++ String.intercalate " AND " conds.2 ++ "\n"
          .ok (pyStrip (selectSql ++ fromSql ++ whereSql ++ groupSql ++ havingSql))

/-! ### Derived per-item semantics, used to characterize the loops -/

/-- SELECT item contributed by one requested metric name (first match in the
schema's metric list). -/
def metricSelectItem (ms : List Metric) (nm : String) : Option String :=
  (ms.find? (fun m => m.name == nm)).map (fun m => m.sql ++ " AS " ++ m.name)

/-- SELECT item and table contributed by one requested dimension name. -/
def dimSelectItem (ds : List Dimension) (nm : String) : Option (String × String) :=
  if pyEndsWith nm "__week" then
    (ds.find? (fun d => d.name == pyReplace nm "__week" "")).map
      (fun d => ("DATE_TRUNC(" ++ d.table ++ "." ++ d.sql ++ ", WEEK) AS " ++ nm, d.table))
  else
    (ds.find? (fun d => d.name == nm)).map
      (fun d => (d.table ++ "." ++ d.sql ++ " AS " ++ nm, d.table))

/-- GROUP BY expression contributed by one requested dimension name. -/
def groupItem (ds : List Dimension) (nm : String) : Option String :=
  if pyEndsWith nm "__week" then
    (ds.find? (fun d => d.name == pyReplace nm "__week" "")).map
      (fun d => "DATE_TRUNC(" ++ d.table ++ "." ++ d.sql ++ ", WEEK)")
  else
    (ds.find? (fun d => d.name == nm)).map (fun d => d.table ++ "." ++ d.sql)

/-- Accumulated table set after the dimension loop. -/
def dimTablesFold (ds : List Dimension) : List String → List String → List String
  | [], tables => tables
  | nm :: rest, tables =>
    match dimSelectItem ds nm with
    | some pr => dimTablesFold ds rest (insertTable tables pr.2)
    | none => dimTablesFold ds rest tables

/-- WHERE rendering of a single non-metric filter, as the source's
loop body renders it. -/
def renderWhere (f : Filter) (sl : SemanticLayer) : String :=
  match f.value with
  | .str s =>
    if ((sl.dimensions.getD []).map Dimension.name).contains f.field && strptimeOk s then
      "DATE(" ++ get_qualified_field f.field sl ++ ") " ++ f.operator ++ " DATE('" ++ s ++ "')"
    else
      get_qualified_field f.field sl ++ " " ++ f.operator ++ " '" ++ s ++ "'"
  | .int n => get_qualified_field f.field sl ++ " " ++ f.operator ++ " " ++ toString n

/-- HAVING rendering of a single metric filter. -/
def renderHaving (f : Filter) : String :=
  f.field ++ " " ++ f.operator ++ " " ++ pyValueStr f.value

/-- Field qualification as the specification words it: first dimension match,
then first metric match, else the field unchanged (no truthiness guard). -/
def qualifySpec (field : String) (sl : SemanticLayer) : String :=
  match (sl.dimensions.getD []).find? (fun d => d.name == field) with
  | some d => d.table ++ "." ++ d.sql
  | none =>
    match sl.metrics.find? (fun m => m.name == field) with
    | some m => m.table ++ "." ++ m.sql
    | none => field

/-- Join emission as the specification words it: anchor join first, then the
required-table membership test. -/
def specJoinLine (tables : List String) (anchor : String) (j : Join) : Option String :=
  if j.one = anchor then some ("JOIN " ++ j.many ++ " ON " ++ j.join)
  else if tables.contains j.one || tables.contains j.many then
    some ("JOIN " ++ j.one ++ " ON " ++ j.join)
  else none

/-! ### Characterization lemmas for the loops -/

lemma dimPartsLoop_char (ds : List Dimension) :
    ∀ (names parts tables : List String),
    dimPartsLoop ds names parts tables =
      (parts ++ names.filterMap (fun nm => (dimSelectItem ds nm).map Prod.fst),
       dimTablesFold ds names tables) := by
  intro names
  induction names with
  | nil => intro parts tables; simp [dimPartsLoop, dimTablesFold]
  | cons nm rest ih =>
    intro parts tables
    by_cases hw : pyEndsWith nm "__week" = true
    · cases hfind : ds.find? (fun d => d.name == pyReplace nm "__week" "") with
      | none =>
        simp [dimPartsLoop, dimTablesFold, dimSelectItem, hw, hfind, ih]
      | some d =>
        simp [dimPartsLoop, dimTablesFold, dimSelectItem, hw, hfind, ih]
    · cases hfind : ds.find? (fun d => d.name == nm) with
      | none =>
        simp [dimPartsLoop, dimTablesFold, dimSelectItem, hw, hfind, ih]
      | some d =>
        simp [dimPartsLoop, dimTablesFold, dimSelectItem, hw, hfind, ih]

lemma groupPartsLoop_char (ds : List Dimension) :
    ∀ (names parts : List String),
    groupPartsLoop ds names parts = parts ++ names.filterMap (groupItem ds) := by
  intro names
  induction names with
  | nil => intro parts; simp [groupPartsLoop]
  | cons nm rest ih =>
    intro parts
    by_cases hw : pyEndsWith nm "__week" = true
    · cases hfind : ds.find? (fun d => d.name == pyReplace nm "__week" "") with
      | none => simp [groupPartsLoop, groupItem, hw, hfind, ih]
      | some d => simp [groupPartsLoop, groupItem, hw, hfind, ih]
    · cases hfind : ds.find? (fun d => d.name == nm) with
      | none => simp [groupPartsLoop, groupItem, hw, hfind, ih]
      | some d => simp [groupPartsLoop, groupItem, hw, hfind, ih]

lemma dimSelectItem_none_groupItem (ds : List Dimension) (nm : String)
    (h : dimSelectItem ds nm = none) : groupItem ds nm = none := by
  unfold dimSelectItem at h
  unfold groupItem
  by_cases hw : pyEndsWith nm "__week" = true
  · rw [if_pos hw] at h ⊢
    rw [Option.map_eq_none'] at h ⊢
    exact h
  · rw [if_neg hw] at h ⊢
    rw [Option.map_eq_none'] at h ⊢
    exact h

lemma buildMetricParts_ok_parts (ms : List Metric) :
    ∀ (names parts tables p t : List String),
    buildMetricParts ms names parts tables = .ok (p, t) →
    p = parts ++ names.filterMap (metricSelectItem ms) := by
  intro names
  induction names with
  | nil =>
    intro parts tables p t h
    simp [buildMetricParts] at h
    simp [h.1.symm]
  | cons nm rest ih =>
    intro parts tables p t h
    cases hfind : ms.find? (fun m => m.name == nm) with
    | none => simp [buildMetricParts, hfind] at h
    | some m =>
      simp only [buildMetricParts, hfind] at h
      have := ih _ _ _ _ h
      simp [this, metricSelectItem, hfind]

lemma buildMetricParts_missing (ms : List Metric) :
    ∀ (names parts tables : List String),
    (∃ nm ∈ names, ms.find? (fun m => m.name == nm) = none) →
    ∃ nm, nm ∈ names ∧ ms.find? (fun m => m.name == nm) = none ∧
      buildMetricParts ms names parts tables =
        .error (.valueError ("Metric " ++ nm ++ " not found in semantic layer")) := by
  intro names
  induction names with
  | nil => intro parts tables h; simp at h
  | cons nm rest ih =>
    intro parts tables h
    cases hfind : ms.find? (fun m => m.name == nm) with
    | none =>
      exact ⟨nm, List.mem_cons_self nm rest, hfind, by simp [buildMetricParts, hfind]⟩
    | some m =>
      obtain ⟨nm', hmem, hnone⟩ := h
      have hmem' : nm' ∈ rest := by
        rcases List.mem_cons.mp hmem with rfl | h'
        · rw [hfind] at hnone; cases hnone
        · exact h'
      obtain ⟨nm'', hmem'', hnone'', heq⟩ :=
        ih (parts ++ [m.sql ++ " AS " ++ m.name]) (insertTable tables m.table) ⟨nm', hmem', hnone⟩
      exact ⟨nm'', List.mem_cons_of_mem nm hmem'', hnone'',
        by simp [buildMetricParts, hfind, heq]⟩

lemma buildMetricParts_total (ms : List Metric) :
    ∀ (names parts tables : List String),
    (∀ nm ∈ names, (ms.find? (fun m => m.name == nm)).isSome) →
    ∃ pt, buildMetricParts ms names parts tables = .ok pt := by
  intro names
  induction names with
  | nil => intro parts tables _; exact ⟨(parts, tables), rfl⟩
  | cons nm rest ih =>
    intro parts tables h
    cases hfind : ms.find? (fun m => m.name == nm) with
    | none =>
      have := h nm (List.mem_cons_self nm rest)
      rw [hfind] at this; cases this
    | some m =>
      obtain ⟨pt, hpt⟩ := ih (parts ++ [m.sql ++ " AS " ++ m.name]) (insertTable tables m.table)
        (fun x hx => h x (List.mem_cons_of_mem nm hx))
      exact ⟨pt, by simp [buildMetricParts, hfind, hpt]⟩

lemma processFilters_char (requested : List String) (sl : SemanticLayer) :
    ∀ (fs : List Filter) (wheres havings : List String),
    processFilters requested sl fs wheres havings =
      (wheres ++ (fs.filter (fun f => !(requested.contains f.field))).map
          (fun f => renderWhere f sl),
       havings ++ (fs.filter (fun f => requested.contains f.field)).map renderHaving) := by
  intro fs
  induction fs with
  | nil => intro wheres havings; simp [processFilters]
  | cons f rest ih =>
    intro wheres havings
    cases hc : requested.contains f.field with
    | true =>
      have hm : f.field ∈ requested := by simpa using hc
      simp [processFilters, hc, hm, ih, renderHaving]
    | false =>
      have hm : f.field ∉ requested := by simpa using hc
      cases hv : f.value with
      | str s =>
        by_cases hcond :
            (∃ a ∈ sl.dimensions.getD [], a.name = f.field) ∧ strptimeOk s = true
        · simp [processFilters, hc, hm, hv, hcond, ih, renderWhere]
        · simp [processFilters, hc, hm, hv, hcond, ih, renderWhere]
      | int n =>
        simp [processFilters, hc, hm, hv, ih, renderWhere]

lemma buildGroupBy_some (ds : List Dimension) (names : List String) :
    buildGroupBy (some ds) names = .ok (names.filterMap (groupItem ds)) := by
  cases names with
  | nil => simp [buildGroupBy]
  | cons nm rest => simp [buildGroupBy, groupPartsLoop_char]

lemma buildDimensionParts_error {dims : Option (List Dimension)} {names tables : List String}
    {e : PyError} (h : buildDimensionParts dims names tables = .error e) :
    ∃ msg, e = .typeError msg := by
  cases names with
  | nil => simp [buildDimensionParts] at h
  | cons nm rest =>
    cases dims with
    | none =>
      simp [buildDimensionParts] at h
      exact ⟨_, h.symm⟩
    | some ds => simp [buildDimensionParts] at h

lemma dimPhase_error {q : Query} {sl : SemanticLayer} {tables : List String} {e : PyError}
    (h : dimPhase q sl tables = .error e) : ∃ msg, e = .typeError msg := by
  unfold dimPhase at h
  cases hq : q.dimensions with
  | none => rw [hq] at h; cases h
  | some names => rw [hq] at h; exact buildDimensionParts_error h

lemma buildFromClause_error {joins : Option (List Join)} {tables : List String} {e : PyError}
    (h : buildFromClause joins tables = .error e) : e = .stopIteration := by
  unfold buildFromClause at h
  by_cases hcond : pyTruthy joins = true ∧ 1 < tables.length
  · rw [if_pos hcond] at h
    cases hfind : tables.find? (fun t => (joinTablesOf (joins.getD [])).contains t) with
    | none =>
      rw [hfind] at h
      simp at h
      exact h.symm
    | some t =>
      rw [hfind] at h
      simp at h
  · rw [if_neg hcond] at h
    cases tables with
    | nil =>
      simp at h
      exact h.symm
    | cons t rest => simp at h

lemma groupPhase_error {q : Query} {sl : SemanticLayer} {dimParts : List String} {e : PyError}
    (h : groupPhase q sl dimParts = .error e) : ∃ msg, e = .typeError msg := by
  unfold groupPhase at h
  by_cases hd : dimParts.isEmpty = true
  · rw [if_pos hd] at h
    simp at h
  · rw [if_neg hd] at h
    cases hg : buildGroupBy sl.dimensions (q.dimensions.getD []) with
    | error e' =>
      rw [hg] at h
      simp at h
      subst h
      cases hn : q.dimensions.getD [] with
      | nil => rw [hn] at hg; simp [buildGroupBy] at hg
      | cons nm rest =>
        rw [hn] at hg
        cases hdims : sl.dimensions with
        | none =>
          rw [hdims] at hg
          simp [buildGroupBy] at hg
          exact ⟨_, hg.symm⟩
        | some ds => rw [hdims] at hg; simp [buildGroupBy] at hg
    | ok gps => rw [hg] at h; simp at h

lemma buildDimensionParts_some (ds : List Dimension) (names t : List String) :
    buildDimensionParts (some ds) names t =
      .ok (names.filterMap (fun x => (dimSelectItem ds x).map Prod.fst),
           dimTablesFold ds names t) := by
  cases names with
  | nil => simp [buildDimensionParts, dimTablesFold]
  | cons nm rest => simp [buildDimensionParts, dimPartsLoop_char]

lemma dimTablesFold_append (ds : List Dimension) (l1 l2 t : List String) :
    dimTablesFold ds (l1 ++ l2) t = dimTablesFold ds l2 (dimTablesFold ds l1 t) := by
  induction l1 generalizing t with
  | nil => rfl
  | cons x xs ih =>
    simp only [List.cons_append, dimTablesFold]
    cases h : dimSelectItem ds x with
    | some pr => simp [ih]
    | none => simp [ih]

lemma dimTablesFold_cons_none (ds : List Dimension) (nm : String) (l t : List String)
    (h : dimSelectItem ds nm = none) :
    dimTablesFold ds (nm :: l) t = dimTablesFold ds l t := by
  simp [dimTablesFold, h]

/-! ### Claim theorems -/

/-- C1: for every query and schema, if any requested metric name has no
matching metric in the schema's metric list, compilation fails with the
metric-not-found `ValueError` and produces no output string; if every
requested metric name matches, no such error is raised (the remaining failure
modes are `TypeError`/`StopIteration`, never a `ValueError`). -/
theorem c1_metric_not_found (q : Query) (sl : SemanticLayer) :
    ((∃ nm ∈ q.metrics, sl.metrics.find? (fun m => m.name == nm) = none) →
      ∃ nm, nm ∈ q.metrics ∧ sl.metrics.find? (fun m => m.name == nm) = none ∧
        generate_sql q sl =
          .error (.valueError ("Metric " ++ nm ++ " not found in semantic layer"))) ∧
    ((∀ nm ∈ q.metrics, (sl.metrics.find? (fun m => m.name == nm)).isSome) →
      ∀ msg, generate_sql q sl ≠ .error (.valueError msg)) := by
  constructor
  · intro h
    obtain ⟨nm, h1, h2, h3⟩ := buildMetricParts_missing sl.metrics q.metrics [] [] h
    exact ⟨nm, h1, h2, by simp [generate_sql, h3]⟩
  · intro hall msg hcontra
    obtain ⟨⟨mp, t1⟩, hok⟩ := buildMetricParts_total sl.metrics q.metrics [] [] hall
    unfold generate_sql at hcontra
    rw [hok] at hcontra
    dsimp only at hcontra
    cases hdim : dimPhase q sl t1 with
    | error e =>
      rw [hdim] at hcontra
      dsimp only at hcontra
      obtain ⟨m1, hm1⟩ := dimPhase_error hdim
      rw [hm1] at hcontra
      cases hcontra
    | ok pr =>
      obtain ⟨dp, tables⟩ := pr
      rw [hdim] at hcontra
      dsimp only at hcontra
      cases hfrom : buildFromClause sl.joins tables with
      | error e =>
        rw [hfrom] at hcontra
        dsimp only at hcontra
        rw [buildFromClause_error hfrom] at hcontra
        cases hcontra
      | ok fromSql =>
        rw [hfrom] at hcontra
        dsimp only at hcontra
        cases hgp : groupPhase q sl dp with
        | error e =>
          rw [hgp] at hcontra
          dsimp only at hcontra
          obtain ⟨m2, hm2⟩ := groupPhase_error hgp
          rw [hm2] at hcontra
          cases hcontra
        | ok groupSql =>
          rw [hgp] at hcontra
          dsimp only at hcontra
          cases hcontra

/-- C1 witness: a concrete query requesting the missing metric `"revenue"`
against a schema that only defines `"order_count"` fails with the
metric-not-found error. -/
theorem c1_metric_not_found_witness :
    ∃ nm, nm ∈ ["revenue"] ∧
      ([Metric.mk "order_count" "COUNT(*)" "orders"].find? (fun m => m.name == nm) = none) ∧
      generate_sql ⟨["revenue"], none, none⟩
          ⟨[⟨"order_count", "COUNT(*)", "orders"⟩], none, none⟩ =
        .error (.valueError ("Metric " ++ nm ++ " not found in semantic layer")) :=
  (c1_metric_not_found ⟨["revenue"], none, none⟩
      ⟨[⟨"order_count", "COUNT(*)", "orders"⟩], none, none⟩).1
    ⟨"revenue", by decide, by decide⟩

/-- C2: a filter is rendered among the HAVING conditions iff its field is a
member of the query's requested metrics list, and every other filter is
rendered among the WHERE conditions; both lists keep query order. -/
theorem c2_filter_routing (fs : List Filter) (requested : List String) (sl : SemanticLayer) :
    processFilters requested sl fs [] [] =
      ((fs.filter (fun f => !(requested.contains f.field))).map (fun f => renderWhere f sl),
       (fs.filter (fun f => requested.contains f.field)).map renderHaving) := by
  simpa using processFilters_char requested sl fs [] []

/-- C6: field qualification checks dimensions first and then metrics,
returning the `<table>.<sql>` of the first match, and returns the input field
unchanged when neither collection matches; it never fails. -/
theorem c6_qualified_field (field : String) (sl : SemanticLayer) :
    get_qualified_field field sl = qualifySpec field sl := by
  unfold get_qualified_field qualifySpec pyTruthy
  cases hdims : sl.dimensions with
  | none => simp
  | some ds =>
    cases ds with
    | nil => simp
    | cons d rest => simp

/-- C9: the SELECT list is the resolved dimension items in query order
followed by the resolved metric items in query order, independent of the
schema's declaration order (both sides are indexed by the query's lists). -/
theorem c9_select_order (q : Query) (sl : SemanticLayer) (mp t1 dp tables : List String)
    (hm : buildMetricParts sl.metrics q.metrics [] [] = .ok (mp, t1))
    (hd : dimPhase q sl t1 = .ok (dp, tables)) :
    dp ++ mp =
      (q.dimensions.getD []).filterMap
        (fun nm => (dimSelectItem (sl.dimensions.getD []) nm).map Prod.fst)
      ++ q.metrics.filterMap (metricSelectItem sl.metrics) := by
  have hmp : mp = q.metrics.filterMap (metricSelectItem sl.metrics) := by
    simpa using buildMetricParts_ok_parts sl.metrics q.metrics [] [] mp t1 hm
  have hdp : dp = (q.dimensions.getD []).filterMap
      (fun nm => (dimSelectItem (sl.dimensions.getD []) nm).map Prod.fst) := by
    unfold dimPhase at hd
    cases hq : q.dimensions with
    | none =>
      rw [hq] at hd
      simp at hd
      rw [hd.1]
      simp
    | some names =>
      rw [hq] at hd
      cases names with
      | nil =>
        simp [buildDimensionParts] at hd
        rw [hd.1]
        simp
      | cons nm rest =>
        cases hdims : sl.dimensions with
        | none => rw [hdims] at hd; simp [buildDimensionParts] at hd
        | some ds =>
          rw [hdims] at hd
          simp [buildDimensionParts, dimPartsLoop_char] at hd
          simp only [Option.getD_some]
          exact hd.1.symm
  rw [hmp, hdp]

/-- C9 witness: metric grouped by one dimension — the SELECT list is the
dimension item then the metric item. -/
theorem c9_select_order_witness :
    ["order_items.status AS status"] ++ ["SUM(sale_price) AS total_revenue"] =
      ((some ["status"] : Option (List String)).getD []).filterMap
        (fun nm => (dimSelectItem
          ((some [Dimension.mk "status" "status" "order_items"] :
            Option (List Dimension)).getD []) nm).map Prod.fst)
      ++ ["total_revenue"].filterMap
          (metricSelectItem [Metric.mk "total_revenue" "SUM(sale_price)" "order_items"]) :=
  c9_select_order ⟨["total_revenue"], some ["status"], none⟩
    ⟨[⟨"total_revenue", "SUM(sale_price)", "order_items"⟩],
     some [⟨"status", "status", "order_items"⟩], none⟩
    ["SUM(sale_price) AS total_revenue"] ["order_items"]
    ["order_items.status AS status"] ["order_items"] rfl rfl

/-- C3 counterexample: the code computes the base name with Python
`str.replace`, which removes EVERY occurrence of `"__week"`, not just the
trailing suffix.  For the requested dimension `"created__week__week"` the
suffix-stripped base `"created__week"` IS declared in the schema, so the
claim predicts a `DATE_TRUNC(t.created_at, WEEK) AS created__week__week`
SELECT item; the code instead looks up `"created"`, finds nothing and
silently drops the dimension, producing a SQL string with no DATE_TRUNC. -/
theorem c3_counterexample :
    generate_sql ⟨["m"], some ["created__week__week"], none⟩
        ⟨[⟨"m", "COUNT(*)", "t"⟩], some [⟨"created__week", "created_at", "t"⟩], none⟩
      = .ok "SELECT COUNT(*) AS m\nFROM t" ∧
    pyEndsWith "created__week__week" "__week" = true ∧
    [Dimension.mk "created__week" "created_at" "t"].find?
        (fun d => d.name == "created__week") = some ⟨"created__week", "created_at", "t"⟩ ∧
    pyReplace "created__week__week" "__week" "" = "created" :=
  ⟨rfl, rfl, rfl, rfl⟩

/-- C3 (amended): for a requested dimension name ending in `__week`, the
compiler removes every occurrence of the substring `__week` from the name to
obtain the base name, and when that base name is found among the schema's
dimensions it emits `DATE_TRUNC(<table>.<sql>, WEEK) AS <originalName>` into
the SELECT parts and `DATE_TRUNC(<table>.<sql>, WEEK)` into the GROUP BY
parts. -/
theorem c3_week_truncation (ds : List Dimension) (names t0 : List String)
    (nm : String) (d : Dimension)
    (hmem : nm ∈ names) (hw : pyEndsWith nm "__week" = true)
    (hfind : ds.find? (fun x => x.name == pyReplace nm "__week" "") = some d) :
    ("DATE_TRUNC(" ++ d.table ++ "." ++ d.sql ++ ", WEEK) AS " ++ nm)
      ∈ (dimPartsLoop ds names [] t0).1 ∧
    ("DATE_TRUNC(" ++ d.table ++ "." ++ d.sql ++ ", WEEK)") ∈ groupPartsLoop ds names [] := by
  have hitem : dimSelectItem ds nm =
      some ("DATE_TRUNC(" ++ d.table ++ "." ++ d.sql ++ ", WEEK) AS " ++ nm, d.table) := by
    unfold dimSelectItem
    rw [if_pos hw, hfind]
    rfl
  have hgitem : groupItem ds nm =
      some ("DATE_TRUNC(" ++ d.table ++ "." ++ d.sql ++ ", WEEK)") := by
    unfold groupItem
    rw [if_pos hw, hfind]
    rfl
  constructor
  · rw [dimPartsLoop_char]
    simp only [List.nil_append]
    exact List.mem_filterMap.mpr ⟨nm, hmem, by rw [hitem]; rfl⟩
  · rw [groupPartsLoop_char]
    simp only [List.nil_append]
    exact List.mem_filterMap.mpr ⟨nm, hmem, hgitem⟩

/-- C3 witness: the `ordered_date__week` dimension of the repository's
weekly-aggregation example resolves to its DATE_TRUNC SELECT item and GROUP
BY expression. -/
theorem c3_week_truncation_witness :
    ("DATE_TRUNC(" ++ "orders" ++ "." ++ "created_at" ++ ", WEEK) AS " ++ "ordered_date__week")
      ∈ (dimPartsLoop [⟨"ordered_date", "created_at", "orders"⟩]
          ["ordered_date__week"] [] ["order_items"]).1 ∧
    ("DATE_TRUNC(" ++ "orders" ++ "." ++ "created_at" ++ ", WEEK)")
      ∈ groupPartsLoop [⟨"ordered_date", "created_at", "orders"⟩] ["ordered_date__week"] [] :=
  c3_week_truncation [⟨"ordered_date", "created_at", "orders"⟩] ["ordered_date__week"]
    ["order_items"] "ordered_date__week" ⟨"ordered_date", "created_at", "orders"⟩
    (List.mem_singleton.mpr rfl) rfl rfl

/-- C4 counterexample: a requested dimension absent from the schema is NOT
always silently dropped: when the schema declares no dimensions list at all
(`dimensions = None`), requesting any dimension makes the Python code iterate
`None` and raise an unhandled `TypeError`; no result string is produced. -/
theorem c4_counterexample :
    generate_sql ⟨["m"], some ["status"], none⟩ ⟨[⟨"m", "COUNT(*)", "t"⟩], none, none⟩ =
      .error (.typeError "argument of type NoneType is not iterable") :=
  rfl

/-- C4 (amended): provided the schema declares a dimensions list, a requested
dimension that resolves to nothing (unknown name, or `__week` name whose
replace-stripped base is unknown, captured by `dimSelectItem _ _ = none`) is
silently dropped: compilation behaves exactly as if that dimension had never
been requested, in SELECT, GROUP BY and everywhere else. -/
theorem c4_silent_dim_drop (q : Query) (sl : SemanticLayer) (ds : List Dimension)
    (pre post : List String) (nm : String)
    (hds : sl.dimensions = some ds)
    (hq : q.dimensions = some (pre ++ nm :: post))
    (hnone : dimSelectItem ds nm = none) :
    generate_sql q sl = generate_sql ⟨q.metrics, some (pre ++ post), q.filters⟩ sl := by
  have hf : (dimSelectItem ds nm).map Prod.fst = none := by rw [hnone]; rfl
  have hg : groupItem ds nm = none := dimSelectItem_none_groupItem ds nm hnone
  have hdim : ∀ t, dimPhase (⟨q.metrics, some (pre ++ post), q.filters⟩ : Query) sl t =
      dimPhase q sl t := by
    intro t
    unfold dimPhase
    dsimp only
    rw [hq]
    dsimp only
    rw [hds, buildDimensionParts_some, buildDimensionParts_some]
    rw [dimTablesFold_append, dimTablesFold_append, dimTablesFold_cons_none ds nm post _ hnone]
    simp [List.filterMap_append, List.filterMap_cons, hf]
  have hgrp : ∀ dp, groupPhase (⟨q.metrics, some (pre ++ post), q.filters⟩ : Query) sl dp =
      groupPhase q sl dp := by
    intro dp
    unfold groupPhase
    dsimp only
    rw [hq, hds, buildGroupBy_some, buildGroupBy_some]
    simp [List.filterMap_append, List.filterMap_cons, hg]
  have h1 : dimPhase (⟨q.metrics, some (pre ++ post), q.filters⟩ : Query) sl = dimPhase q sl :=
    funext hdim
  have h2 : groupPhase (⟨q.metrics, some (pre ++ post), q.filters⟩ : Query) sl =
      groupPhase q sl := funext hgrp
  unfold generate_sql
  rw [h1, h2]

/-- C4 witness: requesting the unknown dimension `"nope"` alongside the known
`"status"` compiles exactly as if only `"status"` had been requested. -/
theorem c4_silent_dim_drop_witness :
    generate_sql ⟨["m"], some (["status"] ++ "nope" :: []), none⟩
        ⟨[⟨"m", "COUNT(*)", "t"⟩], some [⟨"status", "status", "t"⟩], none⟩ =
      generate_sql ⟨["m"], some (["status"] ++ []), none⟩
        ⟨[⟨"m", "COUNT(*)", "t"⟩], some [⟨"status", "status", "t"⟩], none⟩ :=
  c4_silent_dim_drop ⟨["m"], some (["status"] ++ "nope" :: []), none⟩
    ⟨[⟨"m", "COUNT(*)", "t"⟩], some [⟨"status", "status", "t"⟩], none⟩
    [⟨"status", "status", "t"⟩] ["status"] [] "nope" rfl rfl rfl

/-- C5: for the anchor chosen by the FROM phase (a required table that occurs
among the join endpoints), the emitted JOIN lines are exactly, in declaration
order: `JOIN <join.many> ON <join.join>` when the anchor equals `join.one`,
else `JOIN <join.one> ON <join.join>` when either endpoint is a member of the
required-table set — including joins whose only member endpoint is unrelated
to the anchor. -/
theorem c5_join_lines (js : List Join) (tables : List String) (anchor : String)
    (hanchor : tables.find? (fun t => (joinTablesOf js).contains t) = some anchor) :
    joinLinesLoop tables anchor js = js.filterMap (specJoinLine tables anchor) := by
  have hmem : anchor ∈ tables := List.mem_of_find?_eq_some hanchor
  have hcont : tables.contains anchor = true := by simpa using hmem
  clear hanchor
  induction js with
  | nil => rfl
  | cons j rest ih =>
    by_cases h1 : j.one = anchor
    · simp [joinLinesLoop, specJoinLine, h1, hmem, ih]
    · by_cases h2 : j.one ∈ tables ∨ j.many ∈ tables
      · simp [joinLinesLoop, specJoinLine, h1, h2, ih]
      · simp [joinLinesLoop, specJoinLine, h1, h2, ih]

/-- C5 witness: with required tables `order_items` and `orders`, anchor
`order_items`, and the repository's example join, the loop emits exactly the
line the claim predicts. -/
theorem c5_join_lines_witness :
    joinLinesLoop ["order_items", "orders"] "order_items"
        [⟨"orders", "order_items", "order_items.order_id = orders.order_id"⟩] =
      [Join.mk "orders" "order_items" "order_items.order_id = orders.order_id"].filterMap
        (specJoinLine ["order_items", "orders"] "order_items") :=
  c5_join_lines [⟨"orders", "order_items", "order_items.order_id = orders.order_id"⟩]
    ["order_items", "orders"] "order_items" rfl

/-- C7 counterexample: a filter whose field names an existing schema
dimension AND is among the requested metrics, with a value parsing as a
`YYYY-MM-DD` date, is routed to HAVING and rendered as the bare
`d > 2024-01-01`, not as a `DATE(...)` comparison — the metric-routing check
runs before the date rule. -/
theorem c7_counterexample :
    generate_sql ⟨["d"], none, some [⟨"d", ">", .str "2024-01-01"⟩]⟩
        ⟨[⟨"d", "COUNT(*)", "t"⟩], some [⟨"d", "c", "t"⟩], none⟩
      = .ok "SELECT COUNT(*) AS d\nFROM t\nHAVING d > 2024-01-01" ∧
    ([Dimension.mk "d" "c" "t"].map Dimension.name).contains "d" = true ∧
    strptimeOk "2024-01-01" = true ∧
    processFilters ["d"] ⟨[⟨"d", "COUNT(*)", "t"⟩], some [⟨"d", "c", "t"⟩], none⟩
        [⟨"d", ">", .str "2024-01-01"⟩] [] [] = ([], ["d > 2024-01-01"]) :=
  ⟨rfl, rfl, rfl, rfl⟩

/-- C7 (amended): for every filter whose field is NOT among the query's
requested metrics, names a dimension existing in the schema, and whose value
is a string accepted by `strptime(value, "%Y-%m-%d")`, the rendered WHERE
condition is `DATE(<qualified_field>) <operator> DATE('<value>')`. -/
theorem c7_date_rendering (fs : List Filter) (requested : List String) (sl : SemanticLayer)
    (f : Filter) (s : String)
    (hmem : f ∈ fs) (hnotm : requested.contains f.field = false)
    (hval : f.value = .str s)
    (hdim : ((sl.dimensions.getD []).map Dimension.name).contains f.field = true)
    (hdate : strptimeOk s = true) :
    ("DATE(" ++ get_qualified_field f.field sl ++ ") " ++ f.operator ++ " DATE('" ++ s ++ "')")
      ∈ (processFilters requested sl fs [] []).1 := by
  have hcond : (((sl.dimensions.getD []).map Dimension.name).contains f.field
      && strptimeOk s) = true := by rw [hdim, hdate]; rfl
  rw [processFilters_char]
  simp only [List.nil_append]
  apply List.mem_map.mpr
  refine ⟨f, List.mem_filter.mpr ⟨hmem, by simpa using hnotm⟩, ?_⟩
  unfold renderWhere
  rw [hval]
  dsimp only
  rw [if_pos hcond]

/-- C7 witness: the repository's weekly-sales example filter
`ordered_date >= "2024-01-01"` is rendered as a DATE comparison. -/
theorem c7_date_rendering_witness :
    ("DATE(" ++ get_qualified_field "ordered_date"
        ⟨[⟨"total_revenue", "SUM(sale_price)", "order_items"⟩],
         some [⟨"ordered_date", "created_at", "orders"⟩], none⟩ ++ ") "
      ++ ">=" ++ " DATE('" ++ "2024-01-01" ++ "')")
      ∈ (processFilters ["total_revenue"]
          ⟨[⟨"total_revenue", "SUM(sale_price)", "order_items"⟩],
           some [⟨"ordered_date", "created_at", "orders"⟩], none⟩
          [⟨"ordered_date", ">=", .str "2024-01-01"⟩] [] []).1 :=
  c7_date_rendering [⟨"ordered_date", ">=", .str "2024-01-01"⟩] ["total_revenue"]
    ⟨[⟨"total_revenue", "SUM(sale_price)", "order_items"⟩],
     some [⟨"ordered_date", "created_at", "orders"⟩], none⟩
    ⟨"ordered_date", ">=", .str "2024-01-01"⟩ "2024-01-01"
    (List.mem_singleton.mpr rfl) rfl rfl rfl rfl

/-- C8 counterexample: a filter routed to HAVING (field among the requested
metrics) is not matched by the date rule, yet its string value is rendered
UNQUOTED and its field is NOT replaced by the qualified form: the code emits
`m = abc` although the qualified field would be `t.SUM(x)` and the claim
demands `<qualified_field> = 'abc'`. -/
theorem c8_counterexample :
    generate_sql ⟨["m"], none, some [⟨"m", "=", .str "abc"⟩]⟩
        ⟨[⟨"m", "SUM(x)", "t"⟩], none, none⟩
      = .ok "SELECT SUM(x) AS m\nFROM t\nHAVING m = abc" ∧
    strptimeOk "abc" = false ∧
    get_qualified_field "m" ⟨[⟨"m", "SUM(x)", "t"⟩], none, none⟩ = "t.SUM(x)" ∧
    processFilters ["m"] ⟨[⟨"m", "SUM(x)", "t"⟩], none, none⟩
        [⟨"m", "=", .str "abc"⟩] [] [] = ([], ["m = abc"]) :=
  ⟨rfl, rfl, rfl, rfl⟩

/-- C8 (amended): for every filter that is NOT routed to HAVING (its field is
not among the requested metrics) and not matched by the date rule, a numeric
value is rendered unquoted as `<qualified_field> <operator> <value>` and any
other value is rendered single-quoted as `<qualified_field> <operator>
'<value>'` with the value spliced verbatim (no escaping). -/
theorem c8_value_rendering (fs : List Filter) (requested : List String) (sl : SemanticLayer)
    (f : Filter) (hmem : f ∈ fs) (hnotm : requested.contains f.field = false) :
    (∀ n : Int, f.value = .int n →
      (get_qualified_field f.field sl ++ " " ++ f.operator ++ " " ++ toString n)
        ∈ (processFilters requested sl fs [] []).1) ∧
    (∀ s : String, f.value = .str s →
      (((sl.dimensions.getD []).map Dimension.name).contains f.field && strptimeOk s) = false →
      (get_qualified_field f.field sl ++ " " ++ f.operator ++ " '" ++ s ++ "'")
        ∈ (processFilters requested sl fs [] []).1) := by
  constructor
  · intro n hval
    rw [processFilters_char]
    simp only [List.nil_append]
    apply List.mem_map.mpr
    refine ⟨f, List.mem_filter.mpr ⟨hmem, by simpa using hnotm⟩, ?_⟩
    unfold renderWhere
    rw [hval]
  · intro s hval hcond
    rw [processFilters_char]
    simp only [List.nil_append]
    apply List.mem_map.mpr
    refine ⟨f, List.mem_filter.mpr ⟨hmem, by simpa using hnotm⟩, ?_⟩
    unfold renderWhere
    rw [hval]
    dsimp only
    rw [if_neg (by rw [hcond]; simp)]

/-- C8 witness: the numeric filter `num_of_item > 1` renders unquoted with
its qualified field, and the string filter value `Complete` renders
single-quoted. -/
theorem c8_value_rendering_witness :
    ((get_qualified_field "num_of_item"
        ⟨[⟨"count_of_orders", "COUNT(order_id)", "orders"⟩],
         some [⟨"num_of_item", "num_of_item", "orders"⟩], none⟩
        ++ " " ++ ">" ++ " " ++ toString (1 : Int))
      ∈ (processFilters ["count_of_orders"]
          ⟨[⟨"count_of_orders", "COUNT(order_id)", "orders"⟩],
           some [⟨"num_of_item", "num_of_item", "orders"⟩], none⟩
          [⟨"num_of_item", ">", .int 1⟩] [] []).1) ∧
    ((get_qualified_field "status"
        ⟨[⟨"count_of_orders", "COUNT(order_id)", "orders"⟩],
         some [⟨"status", "status", "orders"⟩], none⟩
        ++ " " ++ "=" ++ " '" ++ "Complete" ++ "'")
      ∈ (processFilters ["count_of_orders"]
          ⟨[⟨"count_of_orders", "COUNT(order_id)", "orders"⟩],
           some [⟨"status", "status", "orders"⟩], none⟩
          [⟨"status", "=", .str "Complete"⟩] [] []).1) :=
  ⟨(c8_value_rendering [⟨"num_of_item", ">", .int 1⟩] ["count_of_orders"]
      ⟨[⟨"count_of_orders", "COUNT(order_id)", "orders"⟩],
       some [⟨"num_of_item", "num_of_item", "orders"⟩], none⟩
      ⟨"num_of_item", ">", .int 1⟩ (List.mem_singleton.mpr rfl) rfl).1 1 rfl,
   (c8_value_rendering [⟨"status", "=", .str "Complete"⟩] ["count_of_orders"]
      ⟨[⟨"count_of_orders", "COUNT(order_id)", "orders"⟩],
       some [⟨"status", "status", "orders"⟩], none⟩
      ⟨"status", "=", .str "Complete"⟩ (List.mem_singleton.mpr rfl) rfl).2
     "Complete" rfl rfl⟩

lemma buildFromClause_stop (joins : Option (List Join)) (tables : List String)
    (h : tables = [] ∨ (pyTruthy joins = true ∧ 1 < tables.length ∧
      tables.find? (fun t => (joinTablesOf (joins.getD [])).contains t) = none)) :
    buildFromClause joins tables = .error .stopIteration := by
  rcases h with h | ⟨hj, hlen, hfind⟩
  · subst h
    simp [buildFromClause]
  · unfold buildFromClause
    rw [if_pos ⟨hj, hlen⟩, hfind]

lemma buildFromClause_ok (joins : Option (List Join)) (tables : List String)
    (h1 : tables ≠ [])
    (h2 : pyTruthy joins = true → 1 < tables.length →
      tables.find? (fun t => (joinTablesOf (joins.getD [])).contains t) ≠ none) :
    ∃ s, buildFromClause joins tables = .ok s := by
  by_cases hc : pyTruthy joins = true ∧ 1 < tables.length
  · cases hfind : tables.find? (fun t => (joinTablesOf (joins.getD [])).contains t) with
    | none => exact absurd hfind (h2 hc.1 hc.2)
    | some a =>
      unfold buildFromClause
      rw [if_pos hc, hfind]
      exact ⟨_, rfl⟩
  · cases tables with
    | nil => exact absurd rfl h1
    | cons t rest =>
      unfold buildFromClause
      rw [if_neg hc]
      exact ⟨_, rfl⟩

lemma dimPhase_ok_groupPhase (q : Query) (sl : SemanticLayer) (t1 dp tables : List String)
    (hd : dimPhase q sl t1 = .ok (dp, tables)) :
    ∃ s, groupPhase q sl dp = .ok s := by
  by_cases hdp : dp.isEmpty = true
  · exact ⟨"", by unfold groupPhase; rw [if_pos hdp]⟩
  · have hds : ∃ ds, sl.dimensions = some ds := by
      unfold dimPhase at hd
      cases hq : q.dimensions with
      | none =>
        rw [hq] at hd
        simp at hd
        rw [hd.1] at hdp
        simp at hdp
      | some names =>
        rw [hq] at hd
        cases names with
        | nil =>
          simp [buildDimensionParts] at hd
          rw [hd.1] at hdp
          simp at hdp
        | cons nm rest =>
          cases hdims : sl.dimensions with
          | none => rw [hdims] at hd; simp [buildDimensionParts] at hd
          | some ds => exact ⟨ds, rfl⟩
    obtain ⟨ds, hds⟩ := hds
    unfold groupPhase
    rw [if_neg hdp, hds, buildGroupBy_some]
    exact ⟨_, rfl⟩

/-- C10: once the metric and dimension phases have succeeded, compilation is
total exactly under the precondition that the required-table set is nonempty
and, when the schema's joins list is truthy and more than one table is
required, some required table occurs among the join endpoints; outside the
precondition the FROM/anchor selection raises `StopIteration` (an unhandled
exception, not a typed compile error), and inside it compilation returns a
result string. -/
theorem c10_totality (q : Query) (sl : SemanticLayer) (mp t1 dp tables : List String)
    (hm : buildMetricParts sl.metrics q.metrics [] [] = .ok (mp, t1))
    (hd : dimPhase q sl t1 = .ok (dp, tables)) :
    ((tables = [] ∨ (pyTruthy sl.joins = true ∧ 1 < tables.length ∧
        tables.find? (fun t => (joinTablesOf (sl.joins.getD [])).contains t) = none)) →
      generate_sql q sl = .error .stopIteration) ∧
    ((tables ≠ [] ∧ (pyTruthy sl.joins = true → 1 < tables.length →
        tables.find? (fun t => (joinTablesOf (sl.joins.getD [])).contains t) ≠ none)) →
      ∃ out, generate_sql q sl = .ok out) := by
  constructor
  · intro h
    have hfrom := buildFromClause_stop sl.joins tables h
    unfold generate_sql
    rw [hm]
    dsimp only
    rw [hd]
    dsimp only
    rw [hfrom]
  · intro h
    obtain ⟨s, hfrom⟩ := buildFromClause_ok sl.joins tables h.1 h.2
    obtain ⟨g, hgp⟩ := dimPhase_ok_groupPhase q sl t1 dp tables hd
    unfold generate_sql
    rw [hm]
    dsimp only
    rw [hd]
    dsimp only
    rw [hfrom]
    dsimp only
    rw [hgp]
    exact ⟨_, rfl⟩

/-- C10 witness: a query with an empty metrics list and no dimensions has an
empty required-table set, and compilation raises `StopIteration` at the FROM
selection. -/
theorem c10_totality_witness :
    generate_sql ⟨[], none, none⟩ ⟨[], none, none⟩ = .error .stopIteration :=
  (c10_totality ⟨[], none, none⟩ ⟨[], none, none⟩ [] [] [] [] rfl rfl).1 (Or.inl rfl)

end SemanticLayerModel
